import Mathlib

/-
  Shallow embedding of the NoteBookAI backend (FastAPI service).

  Source files embedded:
  - src/main.py   : the /process_homework endpoint, its request/response
                    models, credential lookup and the Gemini and Llama
                    provider branches.
  - src/auth.py   : the HTTP basic-auth gate.
  - src/ai_models.py : the standalone call_gemini_api helper.

  Python values flowing through the handler are modelled by a small Json
  type; Python dictionary/list access and truthiness are modelled by
  executable functions that return Except to represent raised exceptions.
  Outbound HTTP traffic is modelled by an oracle function from requests to
  upstream results, and each handler returns, next to its result, the list
  of HTTP requests it issued, so that claims about when network calls
  happen can be stated.
-/

namespace NoteBookAI

/-- JSON values, the model of Python objects moving through the handlers. -/
inductive Json where
  | null
  | bool (b : Bool)
  | num (n : Int)
  | str (s : String)
  | arr (elems : List Json)
  | obj (fields : List (String × Json))

/-- Python truthiness of a JSON value: None, False, 0, empty string, empty
list and empty dict are falsy, everything else truthy. -/
def truthy : Json → Bool
  | .null => false
  | .bool b => b
  | .num n => n != 0
  | .str s => !s.isEmpty
  | .arr xs => !xs.isEmpty
  | .obj fs => !fs.isEmpty

/-- Python `d.get(k, default)`: on a dict, the value stored under the key,
or the default when the key is absent; on a non-dict, an AttributeError. -/
def pyDictGetD (j : Json) (k : String) (d : Json) : Except String Json :=
  match j with
  | .obj fields => .ok ((fields.lookup k).getD d)
  | _ => .error "AttributeError"

/-- Python `d.get(k)`: default None. -/
def pyGet (j : Json) (k : String) : Except String Json :=
  pyDictGetD j k .null

/-- Python `d[k]` with a string key: value under the key on a dict
(KeyError if absent); TypeError on anything else. -/
def pySub (j : Json) (k : String) : Except String Json :=
  match j with
  | .obj fields =>
    match fields.lookup k with
    | some v => .ok v
    | none => .error "KeyError"
  | _ => .error "TypeError"

/-- Python `x[i]` with a non-negative integer index: element of a list or
one-character string of a string (IndexError out of range); TypeError on
anything else. -/
def pyIndex (j : Json) (i : Nat) : Except String Json :=
  match j with
  | .arr xs =>
    match xs.get? i with
    | some v => .ok v
    | none => .error "IndexError"
  | .str s =>
    match s.data.get? i with
    | some c => .ok (.str (String.singleton c))
    | none => .error "IndexError"
  | _ => .error "TypeError"

/-- An outbound HTTP request as built by the handlers: URL, method, JSON
body, header list, and timeout in seconds when one is set. -/
structure HttpRequest where
  url : String
  method : String
  body : Json
  headers : List (String × String)
  timeout : Option Nat

/-- An upstream HTTP response: status code, raw body text, parsed JSON body. -/
structure HttpResponse where
  status : Nat
  text : String
  body : Json

/-- Outcome of one outbound HTTP call: either a response arrived, or a
transport-level failure (httpx.RequestError) occurred. -/
inductive UpstreamResult where
  | response (r : HttpResponse)
  | transportError (msg : String)

/-- The closed provider enumeration of HomeworkRequest.api_choice
(`Literal["gemini", "llama"]` in src/main.py). -/
inductive ApiChoice where
  | gemini
  | llama
deriving DecidableEq

/-- The wire string of each provider choice. -/
def ApiChoice.toString : ApiChoice → String
  | .gemini => "gemini"
  | .llama => "llama"

/-- An unvalidated inbound /process_homework payload, before pydantic
validation: api_choice is still an arbitrary string. -/
structure RawRequest where
  study_content : String
  prompt : String
  api_choice : String

/-- A validated HomeworkRequest (src/main.py lines 49-52): api_choice has
passed the Literal check. -/
structure HomeworkRequest where
  study_content : String
  prompt : String
  api_choice : ApiChoice

/-- Pydantic validation of the api_choice field against the Literal type. -/
def parseApiChoice (s : String) : Option ApiChoice :=
  if s = "gemini" then some ApiChoice.gemini
  else if s = "llama" then some ApiChoice.llama
  else none

/-- Pydantic validation of a raw /process_homework payload. -/
def validateRequest (raw : RawRequest) : Option HomeworkRequest :=
  (parseApiChoice raw.api_choice).map
    (fun c => ⟨raw.study_content, raw.prompt, c⟩)

/-- What the endpoint hands back to the HTTP layer: either a 200 JSON body
matching HomeworkResponse (output, model_used), or an HTTPException with a
status code and detail string. -/
inductive HandlerResult where
  | success (output : String) (model_used : String)
  | httpError (status : Nat) (detail : String)
deriving DecidableEq

/-- Process-wide configuration read at startup (src/main.py lines 61-62):
os.getenv returns None when a variable is unset. -/
structure Env where
  GEMINI_API_KEY : Option String
  LLAMA_API_KEY : Option String

/-- Python truthiness of an os.getenv result: None and the empty string
are falsy. `if not GEMINI_API_KEY` in the source is the negation of this. -/
def truthyOpt : Option String → Bool
  | none => false
  | some s => !s.isEmpty

/-- The chained condition on src/main.py line 129:
`result and result.get("candidates") and result["candidates"][0].get("content")
and result["candidates"][0]["content"].get("parts")`, evaluated with Python
short-circuiting; a raised exception is an error. -/
def geminiCond (result : Json) : Except String Bool := do
  if !truthy result then return false
  let g1 ← pyGet result "candidates"
  if !truthy g1 then return false
  let cands ← pySub result "candidates"
  let c0 ← pyIndex cands 0
  let g2 ← pyGet c0 "content"
  if !truthy g2 then return false
  let content ← pySub c0 "content"
  let g3 ← pyGet content "parts"
  if !truthy g3 then return false
  return true

/-- src/main.py lines 129-133: when the shape check passes, ai_output is
`result["candidates"][0]["content"]["parts"][0]["text"]`; otherwise it is
the fixed sentinel string. A raised exception is an error. -/
def geminiAiOutput (result : Json) : Except String Json := do
  let c ← geminiCond result
  if c then
    let cands ← pySub result "candidates"
    let c0 ← pyIndex cands 0
    let content ← pySub c0 "content"
    let parts ← pySub content "parts"
    let p0 ← pyIndex parts 0
    pySub p0 "text"
  else
    return Json.str "Error: Could not get a valid response from Gemini AI."

/-- The Gemini endpoint URL up to the key query parameter
(src/main.py line 111). -/
def GEMINI_ENDPOINT : String :=
  "https://generativelanguage.googleapis.com/v1beta/models/gemini-2.0-flash:generateContent?key="

/-- src/main.py line 108: the concatenated prompt sent to Gemini. -/
def full_prompt (req : HomeworkRequest) : String :=
  "Study Content: " ++ req.study_content ++ "\n\nUser Prompt: " ++ req.prompt

/-- src/main.py lines 113-122: the single-turn Gemini payload with one
user-role message. -/
def geminiPayload (req : HomeworkRequest) : Json :=
  .obj [("contents", .arr [.obj
    [("role", .str "user"),
     ("parts", .arr [.obj [("text", .str (full_prompt req))]])]])]

/-- The POST request issued on src/main.py line 125: key in the URL query,
JSON payload, 60 second timeout, no extra headers. -/
def geminiHttpRequest (key : String) (req : HomeworkRequest) : HttpRequest :=
  ⟨GEMINI_ENDPOINT ++ key, "POST", geminiPayload req, [], some 60⟩

/-- src/main.py line 166 together with response_model=HomeworkResponse:
the returned dict is validated against HomeworkResponse (output must be a
string); a non-string ai_output fails response validation, which FastAPI
surfaces as a 500. -/
def mkResponse (ai_output : Json) (model_used : String) : HandlerResult :=
  match ai_output with
  | .str s => .success s model_used
  | _ => .httpError 500 "ResponseValidationError"

/-- src/main.py lines 106-140: the Gemini branch once the key is known to
be truthy. `raise_for_status` (httpx) raises for any non-2xx status, which
the handler maps to an HTTPException carrying the upstream status and text;
httpx.RequestError maps to 503; any other exception during extraction maps
to 500. -/
def geminiBranch (key : String) (upstream : HttpRequest → UpstreamResult)
    (req : HomeworkRequest) : HandlerResult × List HttpRequest :=
  let hreq := geminiHttpRequest key req
  match upstream hreq with
  | .transportError msg =>
    (.httpError 503 ("Gemini API request failed: " ++ msg), [hreq])
  | .response resp =>
    if 200 ≤ resp.status ∧ resp.status ≤ 299 then
      match geminiAiOutput resp.body with
      | .ok out => (mkResponse out "gemini", [hreq])
      | .error e =>
        (.httpError 500 ("An unexpected error occurred with Gemini API: " ++ e),
         [hreq])
    else
      (.httpError resp.status ("Gemini API returned an error: " ++ resp.text),
       [hreq])

/-- A single-quote character, used in the simulated Llama reply string. -/
def squote : String := String.singleton (Char.ofNat 39)

/-- src/main.py line 161: the fixed simulated Llama reply (the real Llama
call is commented out in the source). -/
def llamaSimulated (prompt : String) : String :=
  "This is a simulated response from Llama AI for: " ++ squote ++ prompt
    ++ squote ++ " based on your content. (Llama API integration pending)"

/-- src/main.py lines 95-166: the /process_homework handler body. The
upstream oracle stands for the network; the second component of the result
lists the outbound HTTP requests the handler issued. -/
def process_homework (env : Env) (upstream : HttpRequest → UpstreamResult)
    (req : HomeworkRequest) : HandlerResult × List HttpRequest :=
  match req.api_choice with
  | .gemini =>
    if !truthyOpt env.GEMINI_API_KEY then
      (.httpError 500 "Gemini API Key not configured.", [])
    else
      geminiBranch (env.GEMINI_API_KEY.getD "") upstream req
  | .llama =>
    if !truthyOpt env.LLAMA_API_KEY then
      (.httpError 500 "Llama API Key not configured.", [])
    else
      (.success (llamaSimulated req.prompt) "llama", [])

/-- FastAPI entry for POST /process_homework: pydantic validates the raw
payload against HomeworkRequest (422 on failure) before the handler body
runs. -/
def process_homework_endpoint (env : Env)
    (upstream : HttpRequest → UpstreamResult) (raw : RawRequest) :
    HandlerResult × List HttpRequest :=
  match validateRequest raw with
  | none => (.httpError 422 "Unprocessable Entity", [])
  | some req => process_homework env upstream req

/-- src/auth.py lines 6-9: the HTTP basic-auth gate; ok for the fixed
admin credentials, 401 otherwise. -/
def authenticate (username password : String) : Except Nat Bool :=
  if username = "admin" ∧ password = "secure123" then .ok true
  else .error 401

/-- Markers for FastAPI dependencies a route can declare. -/
inductive RouteDep where
  | authGate
deriving DecidableEq

/-- The dependency list declared on the /process_homework route
(src/main.py lines 95-96): the decorator and the handler signature declare
no Depends entries at all; in particular the authenticate gate from
src/auth.py is not among them. -/
def process_homework_route_deps : List RouteDep := []

/-- Whether one declared dependency lets a request through. -/
def depPasses (d : RouteDep) (creds : String × String) : Bool :=
  match d with
  | .authGate =>
    match authenticate creds.1 creds.2 with
    | .ok _ => true
    | .error _ => false

/-- The full route as FastAPI runs it: every declared dependency is
evaluated before the handler body; a failing dependency short-circuits to
its error response. -/
def run_process_homework_route (creds : String × String) (env : Env)
    (upstream : HttpRequest → UpstreamResult) (raw : RawRequest) :
    HandlerResult × List HttpRequest :=
  if process_homework_route_deps.all (fun d => depPasses d creds) then
    process_homework_endpoint env upstream raw
  else
    (.httpError 401 "Invalid credentials", [])

/-- The request that src/ai_models.py lines 7-19 builds: the value of
GEMINI_API_KEY is used as the URL, and the same value is sent as a bearer
credential in the Authorization header; no timeout is set. -/
def ai_models_request (key prompt content : String) : HttpRequest :=
  ⟨key, "POST",
   .obj [("prompt", .str prompt), ("content", .str content)],
   [("Authorization", "Bearer " ++ key), ("Content-Type", "application/json")],
   none⟩

/-- src/ai_models.py lines 7-21: call_gemini_api. os.getenv gives the key
(None when unset, in which case requests.post rejects the URL); the return
value is `response.json().get("text", "Error: No response")`. The result
pairs the returned value (or raised exception) with the list of HTTP
requests issued. -/
def call_gemini_api (GEMINI_API_KEY : Option String)
    (upstream : HttpRequest → HttpResponse) (prompt content : String) :
    Except String Json × List HttpRequest :=
  match GEMINI_API_KEY with
  | none => (.error "MissingSchema", [])
  | some key =>
    let req := ai_models_request key prompt content
    let resp := upstream req
    (pyDictGetD resp.body "text" (.str "Error: No response"), [req])

/-! ## Concrete fixtures used by witnesses and counterexamples -/

/-- An environment with both provider keys configured. -/
def envBoth : Env := ⟨some "gk", some "lk"⟩

/-- An environment with only the Gemini key configured. -/
def envGemini : Env := ⟨some "gk", none⟩

/-- An upstream oracle replying 200 with empty candidates, a body whose
shape the Gemini branch rejects. -/
def upMalformed : HttpRequest → UpstreamResult :=
  fun _ => .response ⟨200, "", .obj [("candidates", .arr [])]⟩

/-- The well-formed Gemini reply shape of spec section 6:
`candidates[0].content.parts[0].text`. -/
def mkGeminiReply (t : String) : Json :=
  .obj [("candidates", .arr [.obj
    [("content", .obj [("parts", .arr [.obj [("text", .str t)]])])]])]

/-- An upstream oracle replying 200 with the scenario-1 Gemini body. -/
def upScenario1 : HttpRequest → UpstreamResult :=
  fun _ => .response ⟨200, "", mkGeminiReply "Plants convert light to energy."⟩

/-- An upstream oracle replying 200 with the scenario-2 OpenAI-chat body. -/
def upScenario2 : HttpRequest → UpstreamResult :=
  fun _ => .response ⟨200, "",
    .obj [("choices", .arr [.obj [("message",
      .obj [("content", .str "Plants make food from light.")])]])]⟩

/-- An upstream oracle replying 429 with a rate-limit message. -/
def up429 : HttpRequest → UpstreamResult :=
  fun _ => .response ⟨429, "rate limited", .null⟩

/-- The scenario-1 request with the Gemini provider. -/
def reqGemini : HomeworkRequest :=
  ⟨"Photosynthesis basics", "Summarize in 2 sentences", .gemini⟩

/-- The scenario-2 request with the Llama provider. -/
def reqLlama : HomeworkRequest :=
  ⟨"Photosynthesis basics", "Summarize in 2 sentences", .llama⟩

/-! ## Helper lemmas -/

/-- A nonempty string has isEmpty false. -/
theorem isEmpty_false_of_ne (key : String) (hne : key ≠ "") :
    key.isEmpty = false := by
  cases h : key.isEmpty
  · rfl
  · exact absurd ((String.isEmpty_iff key).mp h) hne

/-- With the Gemini provider chosen and a truthy key configured, the
handler body reduces to the Gemini branch. -/
theorem process_homework_gemini_eq (env : Env)
    (upstream : HttpRequest → UpstreamResult) (req : HomeworkRequest)
    (key : String) (hchoice : req.api_choice = .gemini)
    (hkey : env.GEMINI_API_KEY = some key) (hek : key.isEmpty = false) :
    process_homework env upstream req = geminiBranch key upstream req := by
  have h1 : (!truthyOpt (some key)) = false := by
    simp [truthyOpt, hek]
  unfold process_homework
  rw [hchoice, hkey, h1]
  rfl

/-! ## Claims -/

/-- C1: for a /process_homework request routed to Gemini with a configured
key, when the upstream call returns a success (2xx) status but a body whose
shape check fails (missing or empty candidates, content, or parts — i.e.
the chained condition of src/main.py line 129 evaluates to False), the
handler returns an HTTP-success HomeworkResponse whose output is the fixed
sentinel string, and no error is raised to the caller. -/
theorem gemini_malformed_body_yields_sentinel_success
    (env : Env) (upstream : HttpRequest → UpstreamResult)
    (req : HomeworkRequest) (key : String) (resp : HttpResponse)
    (hchoice : req.api_choice = .gemini)
    (hkey : env.GEMINI_API_KEY = some key) (hne : key ≠ "")
    (hup : upstream (geminiHttpRequest key req) = .response resp)
    (hst : 200 ≤ resp.status ∧ resp.status ≤ 299)
    (hmal : geminiCond resp.body = .ok false) :
    (process_homework env upstream req).1 =
      .success "Error: Could not get a valid response from Gemini AI." "gemini" := by
  have hout : geminiAiOutput resp.body =
      .ok (.str "Error: Could not get a valid response from Gemini AI.") := by
    unfold geminiAiOutput
    rw [hmal]
    rfl
  rw [process_homework_gemini_eq env upstream req key hchoice hkey
    (isEmpty_false_of_ne key hne)]
  simp only [geminiBranch, hup]
  rw [if_pos hst, hout]
  rfl

/-- C1 witness: a concrete malformed body (empty candidates list) under a
200 reply produces the sentinel success. -/
theorem gemini_malformed_body_yields_sentinel_success_witness :
    (process_homework envGemini upMalformed reqGemini).1 =
      .success "Error: Could not get a valid response from Gemini AI." "gemini" :=
  gemini_malformed_body_yields_sentinel_success envGemini upMalformed reqGemini
    "gk" ⟨200, "", .obj [("candidates", .arr [])]⟩
    rfl rfl (by decide) rfl (by decide) rfl

/-- C2 counterexample: with api_choice llama, the Llama credential
configured, and an upstream that would answer any POST with the
scenario-2 body `choices[0].message.content = "Plants make food from
light."`, the handler issues NO outbound HTTP request at all and its
output is not the content of the first choice — refuting the claim that
the llama branch builds an OpenAI-chat payload, POSTs it with a bearer
credential, and returns the first choice content. -/
theorem llama_claimed_post_counterexample :
    (process_homework envBoth upScenario2 reqLlama).2 = [] ∧
    (process_homework envBoth upScenario2 reqLlama).1 ≠
      .success "Plants make food from light." "llama" := by
  constructor
  · rfl
  · decide

/-- C2 (amended): for every /process_homework request with api_choice
llama and a truthy Llama credential, the handler performs no outbound
network call and returns as output the fixed simulated string built from
the prompt — "This is a simulated response from Llama AI for:
(quote)prompt(quote) based on your content. (Llama API integration
pending)" — with model_used "llama" (the real Llama call in src/main.py
lines 146-159 is commented out). -/
theorem llama_branch_simulated_no_network
    (env : Env) (upstream : HttpRequest → UpstreamResult)
    (req : HomeworkRequest) (key : String)
    (hchoice : req.api_choice = .llama)
    (hkey : env.LLAMA_API_KEY = some key) (hne : key ≠ "") :
    process_homework env upstream req =
      (.success (llamaSimulated req.prompt) "llama", []) := by
  have h1 : (!truthyOpt (some key)) = false := by
    simp [truthyOpt, isEmpty_false_of_ne key hne]
  unfold process_homework
  rw [hchoice, hkey, h1]
  rfl

/-- C2 witness: the amended theorem evaluated on the scenario-2 request. -/
theorem llama_branch_simulated_no_network_witness :
    process_homework envBoth upScenario2 reqLlama =
      (.success (llamaSimulated "Summarize in 2 sentences") "llama", []) :=
  llama_branch_simulated_no_network envBoth upScenario2 reqLlama "lk"
    rfl rfl (by decide)

/-- The per-provider credential lookup the handler performs
(src/main.py lines 104 and 143). -/
def credFor (env : Env) : ApiChoice → Option String
  | .gemini => env.GEMINI_API_KEY
  | .llama => env.LLAMA_API_KEY

/-- The key-not-configured detail string of each provider branch
(src/main.py lines 105 and 144). -/
def keyErrorDetail : ApiChoice → String
  | .gemini => "Gemini API Key not configured."
  | .llama => "Llama API Key not configured."

/-- C3: when the credential for the chosen provider is absent, the handler
fails with HTTP 500 (key not configured) and issues no outbound HTTP
request. -/
theorem missing_key_500_before_network
    (env : Env) (upstream : HttpRequest → UpstreamResult)
    (req : HomeworkRequest)
    (habs : credFor env req.api_choice = none) :
    process_homework env upstream req =
      (.httpError 500 (keyErrorDetail req.api_choice), []) := by
  unfold process_homework
  cases hc : req.api_choice
  · rw [hc] at habs
    have h2 : env.GEMINI_API_KEY = none := habs
    rw [h2]
    rfl
  · rw [hc] at habs
    have h2 : env.LLAMA_API_KEY = none := habs
    rw [h2]
    rfl

/-- C3 witness: scenario 3 — Gemini chosen with no Gemini credential
gives a 500 and an empty outbound-call trace. -/
theorem missing_key_500_before_network_witness :
    process_homework ⟨none, some "lk"⟩ upScenario1 reqGemini =
      (.httpError 500 (keyErrorDetail .gemini), []) :=
  missing_key_500_before_network ⟨none, some "lk"⟩ upScenario1 reqGemini rfl

/-- Every success result produced by the Gemini branch carries model
string "gemini". -/
theorem geminiBranch_success_model (key : String)
    (upstream : HttpRequest → UpstreamResult) (req : HomeworkRequest)
    (out mu : String)
    (h : (geminiBranch key upstream req).1 = .success out mu) :
    mu = "gemini" := by
  simp only [geminiBranch] at h
  cases hu : upstream (geminiHttpRequest key req) <;> rw [hu] at h <;>
    simp only [] at h
  · rename_i resp
    by_cases hst : 200 ≤ resp.status ∧ resp.status ≤ 299
    · rw [if_pos hst] at h
      cases ho : geminiAiOutput resp.body <;> rw [ho] at h <;>
        simp only [] at h
      · simp at h
      · rename_i o
        unfold mkResponse at h
        cases o <;> simp_all
    · rw [if_neg hst] at h
      simp at h
  · simp at h

/-- C4: whenever /process_homework returns a HomeworkResponse (a success
rather than an error), its model_used field is the wire string of the
api_choice of the request. -/
theorem model_used_matches_api_choice
    (env : Env) (upstream : HttpRequest → UpstreamResult)
    (req : HomeworkRequest) (out mu : String)
    (h : (process_homework env upstream req).1 = .success out mu) :
    mu = req.api_choice.toString := by
  unfold process_homework at h
  cases hc : req.api_choice <;> rw [hc] at h <;> simp only [] at h
  case gemini =>
    show mu = "gemini"
    by_cases hk : (!truthyOpt env.GEMINI_API_KEY) = true
    · rw [if_pos hk] at h
      simp at h
    · rw [if_neg hk] at h
      exact geminiBranch_success_model _ _ _ _ _ h
  case llama =>
    show mu = "llama"
    by_cases hk : (!truthyOpt env.LLAMA_API_KEY) = true
    · rw [if_pos hk] at h
      simp at h
    · rw [if_neg hk] at h
      simp only [HandlerResult.success.injEq] at h
      exact h.2.symm

/-- C4 witness: scenario 1 returns model_used "gemini" for api_choice
gemini. -/
theorem model_used_matches_api_choice_witness :
    "gemini" = reqGemini.api_choice.toString :=
  model_used_matches_api_choice envGemini upScenario1 reqGemini
    "Plants convert light to energy." "gemini" (by decide)

/-- C5: with api_choice gemini and a truthy key, the handler issues exactly
one POST, whose URL is the Gemini content-generation endpoint with the key
as query credential, whose timeout is 60 seconds, and whose payload is a
single user-role message with text "Study Content: {study_content}(two
newlines)User Prompt: {prompt}"; on a well-formed 2xx reply the output is
the text of the first candidate content part and model_used is gemini. -/
theorem gemini_request_shape_and_success
    (env : Env) (upstream : HttpRequest → UpstreamResult)
    (req : HomeworkRequest) (key t : String) (resp : HttpResponse)
    (hchoice : req.api_choice = .gemini)
    (hkey : env.GEMINI_API_KEY = some key) (hne : key ≠ "")
    (hup : upstream (geminiHttpRequest key req) = .response resp)
    (hst : 200 ≤ resp.status ∧ resp.status ≤ 299)
    (hbody : resp.body = mkGeminiReply t) :
    process_homework env upstream req =
      (.success t "gemini", [geminiHttpRequest key req]) ∧
    (geminiHttpRequest key req).url = GEMINI_ENDPOINT ++ key ∧
    (geminiHttpRequest key req).method = "POST" ∧
    (geminiHttpRequest key req).timeout = some 60 ∧
    (geminiHttpRequest key req).body =
      Json.obj [("contents", Json.arr [Json.obj
        [("role", Json.str "user"),
         ("parts", Json.arr [Json.obj [("text", Json.str
           ("Study Content: " ++ req.study_content ++ "\n\nUser Prompt: "
             ++ req.prompt))]])]])] := by
  refine ⟨?_, rfl, rfl, rfl, rfl⟩
  have hout : geminiAiOutput resp.body = .ok (.str t) := by
    rw [hbody]
    rfl
  rw [process_homework_gemini_eq env upstream req key hchoice hkey
    (isEmpty_false_of_ne key hne)]
  simp only [geminiBranch, hup]
  rw [if_pos hst, hout]
  rfl

/-- C5 witness: scenario 1 end to end. -/
theorem gemini_request_shape_and_success_witness :
    process_homework envGemini upScenario1 reqGemini =
      (.success "Plants convert light to energy." "gemini",
       [geminiHttpRequest "gk" reqGemini]) :=
  (gemini_request_shape_and_success envGemini upScenario1 reqGemini "gk"
    "Plants convert light to energy."
    ⟨200, "", mkGeminiReply "Plants convert light to energy."⟩
    rfl rfl (by decide) rfl (by decide) rfl).1

/-- C6: when the upstream call completes with a non-success HTTP status,
the handler fails with exactly the upstream status code, and the error
detail embeds the upstream response text. -/
theorem upstream_error_status_forwarded
    (env : Env) (upstream : HttpRequest → UpstreamResult)
    (req : HomeworkRequest) (key : String) (resp : HttpResponse)
    (hchoice : req.api_choice = .gemini)
    (hkey : env.GEMINI_API_KEY = some key) (hne : key ≠ "")
    (hup : upstream (geminiHttpRequest key req) = .response resp)
    (hst : ¬(200 ≤ resp.status ∧ resp.status ≤ 299)) :
    (process_homework env upstream req).1 =
      .httpError resp.status ("Gemini API returned an error: " ++ resp.text) := by
  rw [process_homework_gemini_eq env upstream req key hchoice hkey
    (isEmpty_false_of_ne key hne)]
  simp only [geminiBranch, hup]
  rw [if_neg hst]

/-- C6 witness: scenario 4 — a 429 upstream reply surfaces as a 429 whose
detail carries the upstream message body. -/
theorem upstream_error_status_forwarded_witness :
    (process_homework envGemini up429 reqGemini).1 =
      .httpError 429 ("Gemini API returned an error: " ++ "rate limited") :=
  upstream_error_status_forwarded envGemini up429 reqGemini "gk"
    ⟨429, "rate limited", .null⟩ rfl rfl (by decide) rfl (by decide)

/-- C7: a raw /process_homework payload whose api_choice is neither
"gemini" nor "llama" is rejected by pydantic validation (422) before the
handler body runs, and no outbound HTTP request is issued. -/
theorem invalid_api_choice_rejected_before_dispatch
    (env : Env) (upstream : HttpRequest → UpstreamResult) (raw : RawRequest)
    (h1 : raw.api_choice ≠ "gemini") (h2 : raw.api_choice ≠ "llama") :
    process_homework_endpoint env upstream raw =
      (.httpError 422 "Unprocessable Entity", []) := by
  unfold process_homework_endpoint validateRequest parseApiChoice
  rw [if_neg h1, if_neg h2]
  rfl

/-- C7 witness: api_choice "gpt" is rejected with no outbound call. -/
theorem invalid_api_choice_rejected_before_dispatch_witness :
    process_homework_endpoint envBoth upScenario1 ⟨"a", "b", "gpt"⟩ =
      (.httpError 422 "Unprocessable Entity", []) :=
  invalid_api_choice_rejected_before_dispatch envBoth upScenario1
    ⟨"a", "b", "gpt"⟩ (by decide) (by decide)

/-- C8 counterexample: the claim says every /process_homework request
passes the authentication gate before the dispatch router runs, so any
request that reaches an upstream call would have passing credentials. It
is false: with credentials ("guest", "guest") — which the authenticate
gate of src/auth.py rejects with 401 — the route still runs the handler
and issues the outbound Gemini call, because the route declares no
authentication dependency at all. -/
theorem auth_gate_before_dispatch_counterexample :
    ¬ (∀ (creds : String × String) (env : Env)
        (upstream : HttpRequest → UpstreamResult) (raw : RawRequest),
        (run_process_homework_route creds env upstream raw).2 ≠ [] →
        authenticate creds.1 creds.2 = .ok true) := by
  intro hall
  have h := hall ("guest", "guest") envGemini upScenario1 ⟨"a", "b", "gemini"⟩
  have htrace : (run_process_homework_route ("guest", "guest") envGemini
      upScenario1 ⟨"a", "b", "gemini"⟩).2 =
      [geminiHttpRequest "gk" ⟨"a", "b", .gemini⟩] := rfl
  have h2 := h (by rw [htrace]; exact List.cons_ne_nil _ _)
  have h3 : authenticate "guest" "guest" = .error 401 := by
    unfold authenticate
    rw [if_neg]
    intro hc
    exact absurd hc.1 (by decide)
  rw [h3] at h2
  exact Except.noConfusion h2

/-- C8 (amended): the /process_homework route declares no authentication
dependency, so its behavior is independent of any credentials: for all
credentials — including ones the authenticate gate of src/auth.py rejects —
the route runs validation and the handler exactly as if no gate existed;
the authenticate function is never consulted. -/
theorem route_has_no_auth_gate (creds : String × String) (env : Env)
    (upstream : HttpRequest → UpstreamResult) (raw : RawRequest) :
    run_process_homework_route creds env upstream raw =
      process_homework_endpoint env upstream raw := rfl

/-- C9: an empty-string provider credential is treated exactly like an
absent one, because `if not KEY` tests Python truthiness: the handler
answers 500 (key not configured) with no outbound call, and the result is
identical to the absent-credential result. -/
theorem empty_key_same_as_absent
    (env envNone : Env) (upstream : HttpRequest → UpstreamResult)
    (req : HomeworkRequest)
    (hemp : credFor env req.api_choice = some "")
    (habs : credFor envNone req.api_choice = none) :
    process_homework env upstream req =
      (.httpError 500 (keyErrorDetail req.api_choice), []) ∧
    process_homework env upstream req =
      process_homework envNone upstream req := by
  have hmain : process_homework env upstream req =
      (.httpError 500 (keyErrorDetail req.api_choice), []) := by
    unfold process_homework
    cases hc : req.api_choice
    · rw [hc] at hemp
      have h2 : env.GEMINI_API_KEY = some "" := hemp
      rw [h2]
      rfl
    · rw [hc] at hemp
      have h2 : env.LLAMA_API_KEY = some "" := hemp
      rw [h2]
      rfl
  refine ⟨hmain, ?_⟩
  rw [hmain, missing_key_500_before_network envNone upstream req habs]

/-- C9 witness: an environment holding an empty Gemini key behaves like
one with no Gemini key: 500 and no outbound call. -/
theorem empty_key_same_as_absent_witness :
    process_homework ⟨some "", none⟩ upScenario1 reqGemini =
      (.httpError 500 (keyErrorDetail .gemini), []) ∧
    process_homework ⟨some "", none⟩ upScenario1 reqGemini =
      process_homework ⟨none, none⟩ upScenario1 reqGemini :=
  empty_key_same_as_absent ⟨some "", none⟩ ⟨none, none⟩ upScenario1
    reqGemini rfl rfl

/-- C10: call_gemini_api in src/ai_models.py issues its POST to the value
of GEMINI_API_KEY itself used as the URL, sends the same key as a bearer
credential in the Authorization header, and returns the "text" field of
the upstream JSON body, defaulting to "Error: No response" when that field
is absent. -/
theorem call_gemini_api_key_as_url
    (key prompt content : String) (upstream : HttpRequest → HttpResponse)
    (fields : List (String × Json))
    (hbody : (upstream (ai_models_request key prompt content)).body =
      .obj fields) :
    call_gemini_api (some key) upstream prompt content =
      (.ok ((fields.lookup "text").getD (.str "Error: No response")),
       [ai_models_request key prompt content]) ∧
    (ai_models_request key prompt content).url = key ∧
    (ai_models_request key prompt content).headers =
      [("Authorization", "Bearer " ++ key),
       ("Content-Type", "application/json")] ∧
    (ai_models_request key prompt content).method = "POST" := by
  refine ⟨?_, rfl, rfl, rfl⟩
  simp only [call_gemini_api, pyDictGetD]
  rw [hbody]

/-- C10 witness: with a body carrying a "text" field the helper returns
that field; the request URL is the key and the key is in the bearer
header. -/
theorem call_gemini_api_key_as_url_witness :
    call_gemini_api (some "not-a-url") (fun _ => ⟨200, "",
      .obj [("text", .str "hi")]⟩) "p" "c" =
      (.ok (.str "hi"), [ai_models_request "not-a-url" "p" "c"]) :=
  ((call_gemini_api_key_as_url "not-a-url" "p" "c"
    (fun _ => ⟨200, "", .obj [("text", .str "hi")]⟩)
    [("text", .str "hi")] rfl).1)

end NoteBookAI
